import Mathlib

/-!
Verification of the cross-service core of the home-finance-manager
repository: the budget-analysis aggregation engine
(hfm-budget-analysis-service/src/main.py) and the API gateway
(src/main.py), shallowly embedded in Lean 4.

Monetary values and timestamps are modelled as rationals (Python floats /
datetimes at full precision for the inputs the claims quantify over);
timestamps are seconds since an arbitrary epoch, timezone-naive UTC, so
`datetime` subtraction becomes rational subtraction and `timedelta.days`
becomes floor-division by 86400.
-/

namespace HFM

/-- Python `str.lower()` restricted to its ASCII action, applied
characterwise to the characters of the string (`Char.toLower` lowers exactly
the ASCII uppercase letters). -/
def pyLower (s : String) : String := String.mk (s.data.map Char.toLower)

/-- `takesLead pre s` decides whether the character list `s` begins with
the character list `pre` (structural recursion, so the kernel can
evaluate it). -/
def takesLead : List Char → List Char → Bool
  | [], _ => true
  | _ :: _, [] => false
  | c :: cs, d :: ds => c == d && takesLead cs ds

/-- Python `s.startswith(pre)`. -/
def pyStartsWith (s pre : String) : Bool := takesLead pre.data s.data

/-- Python `s.split("/")`: splits on every `/`, keeping empty pieces
(so a leading `/` yields a leading empty piece). -/
def splitSlash : List Char → List (List Char)
  | [] => [[]]
  | c :: cs =>
    match splitSlash cs with
    | [] => [[]]
    | p :: ps => if c = '/' then [] :: p :: ps else (c :: p) :: ps

/-- Python `s.split("/")` on strings. -/
def pySplitSlash (s : String) : List String :=
  (splitSlash s.data).map (fun l => String.mk l)

/-- A transaction record as the aggregation engine receives it from the
Transaction Source: at least an `amount` (numeric) and a `category`
(string), per the dependency contract. Mirrors the dict fields the code
reads via `t.get("amount", 0)` and `t.get("category", "")`. -/
structure Transaction where
  amount : ℚ
  category : String
  deriving DecidableEq, Repr

/-- A budget row (`class Budget` in hfm-budget-analysis-service), the
fields the analysis reads. `start_date`/`end_date` are timestamps in
seconds. -/
structure Budget where
  id : ℤ
  user_id : ℤ
  name : String
  category : String
  amount : ℚ
  period : String
  start_date : ℚ
  end_date : ℚ
  deriving DecidableEq, Repr

/-- `class BudgetAnalysis(BaseModel)` in hfm-budget-analysis-service. -/
structure BudgetAnalysis where
  budget_id : ℤ
  budget_name : String
  budget_amount : ℚ
  spent_amount : ℚ
  remaining_amount : ℚ
  percentage_used : ℚ
  days_remaining : ℤ
  status : String
  deriving DecidableEq, Repr

/-- `class SpendingInsight(BaseModel)` in hfm-budget-analysis-service. -/
structure SpendingInsight where
  category : String
  total_spent : ℚ
  transaction_count : ℕ
  average_transaction : ℚ
  trend : String
  deriving DecidableEq, Repr

/-- The category filter of `analyze_budgets`:
`t.get("category", "").lower() == budget.category.lower()`. -/
def matchesCategory (b : Budget) (t : Transaction) : Bool :=
  pyLower t.category == pyLower b.category

/-- `spent_amount`: the `sum` of `t.get("amount", 0)` over
`category_transactions`, which filters by `matchesCategory`. -/
def spentAmount (b : Budget) (txs : List Transaction) : ℚ :=
  ((txs.filter (matchesCategory b)).map Transaction.amount).sum

/-- The status ladder of `analyze_budgets` (first match wins):
`if percentage_used >= 100: "over_budget" elif percentage_used >= 80:
"at_risk" else: "on_track"`. -/
def statusOf (p : ℚ) : String :=
  if p ≥ 100 then "over_budget"
  else if p ≥ 80 then "at_risk"
  else "on_track"

/-- The loop body of `analyze_budgets` for a single budget, given the
transactions fetched for its period and the current time `now`
(`datetime.utcnow()`), as a pure function.
`(budget.end_date - datetime.utcnow()).days` is whole-day truncation
toward the floor of the signed difference, hence the rational floor of
the difference in seconds divided by 86400. -/
def analyzeBudget (now : ℚ) (b : Budget) (txs : List Transaction) : BudgetAnalysis :=
  let spent := spentAmount b txs
  let remaining := b.amount - spent
  let percentage := if b.amount > 0 then spent / b.amount * 100 else 0
  let daysRem : ℤ := ⌊(b.end_date - now) / 86400⌋
  { budget_id := b.id
    budget_name := b.name
    budget_amount := b.amount
    spent_amount := spent
    remaining_amount := remaining
    percentage_used := percentage
    days_remaining := max 0 daysRem
    status := statusOf percentage }

/-! ### Transaction fetching and the `analyze_budgets` loop -/

/-- The observable outcome of the HTTP GET that `get_user_transactions`
performs against the Transaction Source: either an `httpx` transport
error (connection refused, timeout, ...) raised while sending, or a
response with a status code and a (parsed) body. -/
inductive FetchOutcome where
  | transportError (msg : String)
  | response (status_code : ℕ) (body : List Transaction)
  deriving DecidableEq, Repr

/-- `get_user_transactions` in hfm-budget-analysis-service: returns
`response.json()` when `response.status_code == 200` and `[]` for any
other status; a transport error is not caught and propagates as an
exception (`Except.error`). -/
def get_user_transactions : FetchOutcome → Except String (List Transaction)
  | .transportError msg => .error msg
  | .response sc body => if sc = 200 then .ok body else .ok []

/-- The `analyze_budgets` endpoint loop: for each budget in order, fetch
its transactions (`fetch` gives the outcome of the remote call made
for each budget) and analyze; an uncaught exception from a fetch aborts the whole
endpoint call, which `List.mapM` over `Except` mirrors (the first
`Except.error` discards the analyses of all other budgets). -/
def analyze_budgets (now : ℚ) (fetch : Budget → FetchOutcome) (budgets : List Budget) :
    Except String (List BudgetAnalysis) :=
  budgets.mapM (fun b => (get_user_transactions (fetch b)).map (analyzeBudget now b))

/-! ### Spending insights (`get_spending_insights`) -/

/-- Round-half-to-even on rationals, the rounding pandas `round` applies
to each aggregated value. -/
def roundHalfEven (q : ℚ) : ℤ :=
  let f := ⌊q⌋
  let r := q - f
  if r < 1 / 2 then f
  else if 1 / 2 < r then f + 1
  else if f % 2 = 0 then f else f + 1

/-- pandas `.round(2)`: round to 2 decimal places, half to even. -/
def round2 (q : ℚ) : ℚ := (roundHalfEven (q * 100) : ℚ) / 100

/-- Insert a category label into an ascending-sorted list of labels. -/
def insertAsc (c : String) : List String → List String
  | [] => [c]
  | d :: ds => if c ≤ d then c :: d :: ds else d :: insertAsc c ds

/-- The group keys of `df.groupby("category")`: the distinct category
labels (exact labels, no case-folding), iterated in ascending order —
pandas sorts group keys by default. -/
def sortedCategories (txs : List Transaction) : List String :=
  ((txs.map Transaction.category).dedup).foldr insertAsc []

/-- One row of the grouped aggregation
`df.groupby("category").agg(...)["sum", "count", "mean"].round(2)`
together with the fixed `trend = "stable"` placeholder, packaged as in
the `insights.append(SpendingInsight(...))` loop. -/
def insightFor (txs : List Transaction) (c : String) : SpendingInsight :=
  let g := txs.filter (fun t => t.category == c)
  let total := (g.map Transaction.amount).sum
  let n := g.length
  { category := c
    total_spent := round2 total
    transaction_count := n
    average_transaction := round2 (total / n)
    trend := "stable" }

/-- The `insights` list in group-iteration order, before the final sort. -/
def groupInsights (txs : List Transaction) : List SpendingInsight :=
  (sortedCategories txs).map (insightFor txs)

/-- Insert into a list sorted by `total_spent` descending, after every
element of greater-or-equal total: the unique stable descending
insertion, extensionally equal to the stable Python sort
`insights.sort(key=lambda x: x.total_spent, reverse=True)`. -/
def insertDesc (x : SpendingInsight) : List SpendingInsight → List SpendingInsight
  | [] => [x]
  | y :: ys => if y.total_spent ≤ x.total_spent then x :: y :: ys else y :: insertDesc x ys

/-- Stable sort by `total_spent` descending (Python `list.sort` with
`reverse=True` is stable: ties keep their pre-sort order). -/
def sortByTotalDesc (l : List SpendingInsight) : List SpendingInsight :=
  l.foldr insertDesc []

/-- The pure part of the `get_spending_insights` endpoint, applied to the
transactions fetched for the trailing window: empty input short-circuits
to `[]` (`if not transactions: return []` / `if df.empty: return []`),
otherwise group, aggregate and sort. -/
def get_spending_insights (txs : List Transaction) : List SpendingInsight :=
  if txs.isEmpty then [] else sortByTotalDesc (groupInsights txs)

/-! ### Gateway (`src/main.py`) -/

/-- The inbound request as the gateway handlers see it: `request.method`,
`dict(request.headers)` (header names lowercased by the server, one
value per name), `dict(request.query_params)`, and the raw body bytes
`await request.body()`. -/
structure Request where
  method : String
  headers : List (String × String)
  query_params : List (String × String)
  body : List ℕ
  deriving DecidableEq, Repr

/-- The outbound request `proxy_request` hands to `httpx`: target URL,
method, forwarded headers, `params=` (GET only) and `content=`
(POST/PUT only). -/
structure OutboundRequest where
  url : String
  method : String
  headers : List (String × String)
  params : Option (List (String × String))
  content : Option (List ℕ)
  deriving DecidableEq, Repr

/-- The request-building half of `proxy_request` (lines 32–51):
`url = f"{service_url}{path}"`, `headers = dict(request.headers)` with
`headers.pop("host", None)`, then dispatch on the method, raising
`HTTPException(405)` for any other method. -/
def build_outbound (service_url path : String) (method : String) (req : Request) :
    Except ℕ OutboundRequest :=
  let url := service_url ++ path
  let headers := req.headers.filter (fun p => p.1 != "host")
  if method = "GET" then
    .ok { url := url, method := "GET", headers := headers,
          params := some req.query_params, content := none }
  else if method = "POST" then
    .ok { url := url, method := "POST", headers := headers,
          params := none, content := some req.body }
  else if method = "PUT" then
    .ok { url := url, method := "PUT", headers := headers,
          params := none, content := some req.body }
  else if method = "DELETE" then
    .ok { url := url, method := "DELETE", headers := headers,
          params := none, content := none }
  else
    .error 405

/-- A minimal JSON value type, the target of `response.json()`. -/
inductive Json where
  | null
  | bool (b : Bool)
  | num (q : ℚ)
  | str (s : String)
  | arr (elems : List Json)
  | obj (fields : List (String × Json))

/-- The reply of the backend as `proxy_request` reads it:
`response.status_code`, `response.headers.get("content-type", "")`,
`response.text` (the body `response.json()` would parse), and
`dict(response.headers)`. -/
structure BackendResponse where
  status_code : ℕ
  content_type : String
  body : String
  resp_headers : List (String × String)

/-- What sending the outbound request observably produces: either an
`httpx.RequestError` (transport failure) or a backend response. -/
inductive BackendOutcome where
  | requestError (msg : String)
  | ok (resp : BackendResponse)

/-- The `content` field `proxy_request` builds: parsed JSON when the
backend content type starts with `application/json`, otherwise the body
text. -/
inductive Content where
  | json (j : Json)
  | text (s : String)

/-- The dict `proxy_request` returns on success (lines 53–57). -/
structure ProxyResult where
  status_code : ℕ
  content : Content
  resp_headers : List (String × String)

/-- An exception escaping `proxy_request`: a raised
`HTTPException(status_code, detail)` (405 or 503), or the
`json.JSONDecodeError` (a `ValueError`) raised by `response.json()` on a
non-JSON body — the `except httpx.RequestError` clause catches neither. -/
inductive ProxyError where
  | httpException (status_code : ℕ) (detail : String)
  | jsonDecodeError

/-- The response-packaging half of `proxy_request` (lines 53–60),
parameterized by the JSON parser `parse` standing for `json.loads`
(`parse body = none` exactly when the body is not valid JSON, in which
case `response.json()` raises). A transport error is caught by
`except httpx.RequestError` and re-raised as `HTTPException(503, ...)`. -/
def proxy_response (parse : String → Option Json) (out : BackendOutcome) :
    Except ProxyError ProxyResult :=
  match out with
  | .requestError msg =>
    .error (.httpException 503 ("Service unavailable: " ++ msg))
  | .ok resp =>
    if pyStartsWith resp.content_type "application/json" then
      match parse resp.body with
      | some j => .ok ⟨resp.status_code, .json j, resp.resp_headers⟩
      | none => .error .jsonDecodeError
    else
      .ok ⟨resp.status_code, .text resp.body, resp.resp_headers⟩

/-- Whole `proxy_request`: build the outbound request (405 for an
unsupported method, raised inside the `try` but not an
`httpx.RequestError`, so not converted to 503), send it (`send` gives
the observable answer of the network), and package the response. -/
def proxy_request (parse : String → Option Json) (send : OutboundRequest → BackendOutcome)
    (service_url path method : String) (req : Request) :
    Except ProxyError ProxyResult :=
  match build_outbound service_url path method req with
  | .error code => .error (.httpException code "Method not allowed")
  | .ok outReq => proxy_response parse (send outReq)

/-- What the caller of the gateway receives for one handled request. -/
inductive GatewayOutcome where
  | response (status_code : ℕ) (content : Content)
  | httpErrorResponse (status_code : ℕ) (detail : String)
  | internalServerError

/-- The handler tail shared by every proxy route: `return
result["content"]` hands FastAPI only the content, which FastAPI serves
with its default status 200; a raised `HTTPException` becomes an error
response with its own status; any other exception (the JSON decode
error) escapes as an internal server error — neither the backend body
nor the 503 translation. -/
def handle_result (r : Except ProxyError ProxyResult) : GatewayOutcome :=
  match r with
  | .ok res => .response 200 res.content
  | .error (.httpException c d) => .httpErrorResponse c d
  | .error .jsonDecodeError => .internalServerError

/-- The sub-path `transactions_proxy` forwards: `f"/{path}"`. -/
def transactions_proxy_path (rest : String) : String := "/" ++ rest

/-- The sub-path the accounts/notifications/budget handlers forward:
`request.url.path.split("/")[-2]` glued between slashes ahead of `path` (Python `[-2]` is the
second-to-last piece of the split). -/
def accounts_proxy_path (url_path rest : String) : String :=
  let parts := pySplitSlash url_path
  "/" ++ parts.getD (parts.length - 2) "" ++ "/" ++ rest

/-- Forwarded path for an inbound `/api/v1/users/{rest}` request: the
route pattern is `/api/v1/users/{path:path}`, so `request.url.path` is
`"/api/v1/users/" ++ rest`. -/
def users_route_forward (rest : String) : String :=
  accounts_proxy_path ("/api/v1/users/" ++ rest) rest

/-- Forwarded path for an inbound `/api/v1/accounts/{rest}` request. -/
def accounts_route_forward (rest : String) : String :=
  accounts_proxy_path ("/api/v1/accounts/" ++ rest) rest

/-- Digits-to-number helper for the JSON atom parser. -/
def natOfDigits (cs : List Char) : ℕ :=
  cs.foldl (fun n c => 10 * n + (c.toNat - 48)) 0

/-- `json.loads` restricted to the atom fragment {`null`, `true`,
`false`, nonnegative integer literals, escape-free string literals};
inputs outside the fragment give `none`. The fragment is used only on
inputs where `json.loads` agrees (its accepted atoms, and malformed
inputs such as `"{"` that `json.loads` also rejects). -/
def parseJsonAtom (s : String) : Option Json :=
  let cs := s.data
  if s = "null" then some .null
  else if s = "true" then some (.bool true)
  else if s = "false" then some (.bool false)
  else if cs ≠ [] ∧ cs.all (·.isDigit) then some (.num (natOfDigits cs))
  else
    match cs with
    | '"' :: rest =>
      if rest ≠ [] ∧ rest.getLast? = some '"' ∧ rest.dropLast.all (· != '"') then
        some (.str (String.mk rest.dropLast))
      else none
    | _ => none

/-! ### Concrete fixtures used by examples and witnesses -/

/-- Fixture: the end-to-end budget of spec §8 (500 for "dining", a
30-day window). -/
def bDining : Budget :=
  { id := 1, user_id := 1, name := "d", category := "dining", amount := 500,
    period := "monthly", start_date := 0, end_date := 2592000 }

/-- Fixture: the end-to-end transaction list of spec §8. -/
def txsDining : List Transaction := [⟨120, "Dining"⟩, ⟨80, "transport"⟩]

/-- Fixture: a budget sitting exactly at the 80 % boundary when spent is 4. -/
def bAtRisk : Budget :=
  { id := 3, user_id := 1, name := "a", category := "x", amount := 5,
    period := "monthly", start_date := 0, end_date := 0 }

/-- Fixture: one matching transaction of amount 4 against `bAtRisk`. -/
def txsAtRisk : List Transaction := [⟨4, "x"⟩]

/-- Fixture: a budget with amount 0 (division-guard case). -/
def bZeroAmount : Budget :=
  { id := 4, user_id := 1, name := "z", category := "z", amount := 0,
    period := "monthly", start_date := 0, end_date := 0 }

/-- Fixture: the lowercase-categorized budget of the case-insensitivity
example ("groceries" against a "Groceries" transaction). -/
def bGroceries : Budget :=
  { id := 5, user_id := 1, name := "g", category := "groceries", amount := 300,
    period := "monthly", start_date := 0, end_date := 2592000 }

/-- Fixture: first budget of the fail-isolation scenario. -/
def bFoodFirst : Budget :=
  { id := 1, user_id := 7, name := "b1", category := "food", amount := 100,
    period := "monthly", start_date := 0, end_date := 2592000 }

/-- Fixture: second budget of the fail-isolation scenario. -/
def bRentSecond : Budget :=
  { id := 2, user_id := 7, name := "b2", category := "rent", amount := 100,
    period := "monthly", start_date := 0, end_date := 2592000 }

/-- Fixture: the fetch of the first budget suffers a transport error,
the fetch of the second succeeds. -/
def failingFetch : Budget → FetchOutcome := fun b =>
  if b.id = 1 then .transportError "Connection refused"
  else .response 200 [⟨50, "rent"⟩]

/-- Fixture: a backend that answers 404 with a plain-text body. -/
def sendText404 : OutboundRequest → BackendOutcome := fun _ =>
  .ok { status_code := 404, content_type := "text/plain", body := "missing",
        resp_headers := [] }

/-- Fixture: a plain GET request with one non-host header. -/
def reqSimpleGet : Request :=
  { method := "GET", headers := [("accept", "*/*")], query_params := [], body := [] }

/-- Default base URL of the transactions backend (`SERVICE_URLS`). -/
def transaction_service_url : String := "http://localhost:8001"

/-- The `transactions_proxy` handler end to end: forward to the
transactions backend at `f"/{path}"` and return `result["content"]`. -/
def transactions_proxy (parse : String → Option Json)
    (send : OutboundRequest → BackendOutcome) (rest : String) (req : Request) :
    GatewayOutcome :=
  handle_result (proxy_request parse send transaction_service_url
    (transactions_proxy_path rest) req.method req)

/-- Fixture: a 200 response claiming JSON content type whose body `"{"`
is not valid JSON. -/
def respBadJson : BackendResponse :=
  { status_code := 200, content_type := "application/json", body := "\x7b",
    resp_headers := [] }

/-- Fixture: an inbound GET request carrying a host header and one query
parameter. -/
def reqWitness : Request :=
  { method := "GET", headers := [("host", "gw.local"), ("accept", "*/*")],
    query_params := [("a", "1")], body := [] }

/-- Fixture: the outbound request `build_outbound` produces from
`reqWitness` for a GET to the accounts backend. -/
def outWitness : OutboundRequest :=
  { url := "http://localhost:8002/users/me", method := "GET",
    headers := [("accept", "*/*")], params := some [("a", "1")], content := none }

/-- Fixture: two single-transaction categories with distinct totals. -/
def txsIns : List Transaction := [⟨10, "b"⟩, ⟨5, "a"⟩]

/-! ## Theorems -/

/-- Spec §8 end-to-end scenario: budget 500 for "dining" over 30 days,
transactions 120 "Dining" and 80 "transport" give spent 120,
remaining 380, percentage 24, on track. -/
example :
    analyzeBudget 0 bDining txsDining =
    { budget_id := 1, budget_name := "d", budget_amount := 500, spent_amount := 120,
      remaining_amount := 380, percentage_used := 24, days_remaining := 30,
      status := "on_track" } := by
  have hf : txsDining.filter (matchesCategory bDining) = [⟨120, "Dining"⟩] := by decide
  simp only [analyzeBudget, spentAmount, bDining, hf, List.map, List.sum, statusOf]
  norm_num

/-- Helper: the three status labels are exactly the three percentage
bands, boundary-exact at 80 and 100. -/
theorem statusOf_spec (p : ℚ) :
    (statusOf p = "over_budget" ↔ 100 ≤ p) ∧
    (statusOf p = "at_risk" ↔ 80 ≤ p ∧ p < 100) ∧
    (statusOf p = "on_track" ↔ p < 80) := by
  have h1 : ("over_budget" : String) ≠ "at_risk" := by decide
  have h2 : ("over_budget" : String) ≠ "on_track" := by decide
  have h3 : ("at_risk" : String) ≠ "on_track" := by decide
  unfold statusOf
  split_ifs with ha hb
  · refine ⟨⟨fun _ => ha, fun _ => rfl⟩, ?_, ?_⟩
    · exact ⟨fun hc => absurd hc h1, fun hband => absurd ha (not_le.mpr hband.2)⟩
    · exact ⟨fun hc => absurd hc h2, fun hlt => absurd ha (not_le.mpr (by linarith))⟩
  · refine ⟨?_, ⟨fun _ => ⟨hb, not_le.mp ha⟩, fun _ => rfl⟩, ?_⟩
    · exact ⟨fun hc => absurd hc (Ne.symm h1), fun hge => absurd hge ha⟩
    · exact ⟨fun hc => absurd hc h3, fun hlt => absurd hb (not_le.mpr hlt)⟩
  · refine ⟨?_, ?_, ⟨fun _ => not_le.mp hb, fun _ => rfl⟩⟩
    · exact ⟨fun hc => absurd hc (Ne.symm h2), fun hge => absurd (by linarith : (80:ℚ) ≤ p) hb⟩
    · exact ⟨fun hc => absurd hc (Ne.symm h3), fun hband => absurd hband.1 hb⟩

/-- C1: in analyze, for every budget with amount > 0 the status is
derived from percentage_used by first-match order — over_budget iff
percentage_used ≥ 100, at_risk iff 80 ≤ percentage_used < 100, on_track
iff percentage_used < 80, with both boundaries exact. -/
theorem c1_status_from_percentage (now : ℚ) (b : Budget) (txs : List Transaction)
    (h : 0 < b.amount) :
    ((analyzeBudget now b txs).status = "over_budget" ↔
      100 ≤ (analyzeBudget now b txs).percentage_used) ∧
    ((analyzeBudget now b txs).status = "at_risk" ↔
      80 ≤ (analyzeBudget now b txs).percentage_used ∧
        (analyzeBudget now b txs).percentage_used < 100) ∧
    ((analyzeBudget now b txs).status = "on_track" ↔
      (analyzeBudget now b txs).percentage_used < 80) :=
  statusOf_spec ((analyzeBudget now b txs).percentage_used)

/-- Witness for C1: the 80 % boundary is reached with amount 5 and a
matching spend of 4, and the status there is at_risk. -/
theorem c1_status_witness : (analyzeBudget 0 bAtRisk txsAtRisk).status = "at_risk" := by
  have H := (c1_status_from_percentage 0 bAtRisk txsAtRisk (by norm_num [bAtRisk])).2.1
  apply H.mpr
  have hf : txsAtRisk.filter (matchesCategory bAtRisk) = txsAtRisk := by decide
  have hp : (analyzeBudget 0 bAtRisk txsAtRisk).percentage_used = 80 := by
    simp only [analyzeBudget, spentAmount, hf, bAtRisk, txsAtRisk, List.map, List.sum]
    norm_num
  rw [hp]
  norm_num

/-- C5: in analyze, a budget with amount ≤ 0 gets percentage_used = 0
with no division performed (the guard takes the 0 branch), and its
status is derived from that 0, hence on_track. -/
theorem c5_division_guard (now : ℚ) (b : Budget) (txs : List Transaction)
    (h : b.amount ≤ 0) :
    (analyzeBudget now b txs).percentage_used = 0 ∧
    (analyzeBudget now b txs).status = "on_track" := by
  have hnot : ¬ b.amount > 0 := not_lt.mpr h
  have hp : (analyzeBudget now b txs).percentage_used = 0 := by
    simp [analyzeBudget, hnot]
  refine ⟨hp, ?_⟩
  have hs : (analyzeBudget now b txs).status
      = statusOf ((analyzeBudget now b txs).percentage_used) := rfl
  rw [hs, hp]
  norm_num [statusOf]

/-- Witness for C5: a concrete amount-0 budget analyzes to
percentage 0 and on_track. -/
theorem c5_division_guard_witness :
    (analyzeBudget 0 bZeroAmount []).percentage_used = 0 ∧
    (analyzeBudget 0 bZeroAmount []).status = "on_track" :=
  c5_division_guard 0 bZeroAmount [] (by norm_num [bZeroAmount])

/-- C6: in analyze, days_remaining is max(0, floor((end − now)/86400)) —
whole-day truncation toward the floor of the signed difference — and is
never negative, no matter how far end lies in the past. -/
theorem c6_days_remaining (now : ℚ) (b : Budget) (txs : List Transaction) :
    (analyzeBudget now b txs).days_remaining = max 0 ⌊(b.end_date - now) / 86400⌋ ∧
    0 ≤ (analyzeBudget now b txs).days_remaining :=
  ⟨rfl, le_max_left 0 ⌊(b.end_date - now) / 86400⌋⟩

/-- C7: in analyze, a transaction contributes to spent exactly when its
category label equals the budget category case-insensitively; spent is
the sum of the amounts of exactly the matching transactions, and 0 when
none match. -/
theorem c7_case_insensitive_spend (now : ℚ) (b : Budget) (txs : List Transaction) :
    (analyzeBudget now b txs).spent_amount
        = ((txs.filter (matchesCategory b)).map Transaction.amount).sum ∧
    (∀ t : Transaction,
      matchesCategory b t = true ↔ pyLower t.category = pyLower b.category) ∧
    ((∀ t ∈ txs, pyLower t.category ≠ pyLower b.category) →
      (analyzeBudget now b txs).spent_amount = 0) := by
  refine ⟨rfl, ?_, ?_⟩
  · intro t
    simp [matchesCategory]
  · intro hnone
    have hf : txs.filter (matchesCategory b) = [] := by
      rw [List.filter_eq_nil_iff]
      intro t ht
      simp only [matchesCategory, beq_iff_eq]
      exact hnone t ht
    show spentAmount b txs = 0
    rw [spentAmount, hf]
    rfl

/-- Witness for C7: a "Groceries" transaction matches the "groceries"
budget, and a transaction list without a category match sums to
spent 0. -/
theorem c7_case_insensitive_witness :
    matchesCategory bGroceries ⟨120, "Groceries"⟩ = true ∧
    (analyzeBudget 0 bGroceries [⟨80, "transport"⟩]).spent_amount = 0 :=
  ⟨((c7_case_insensitive_spend 0 bGroceries [⟨80, "transport"⟩]).2.1
      ⟨120, "Groceries"⟩).mpr (by decide),
   (c7_case_insensitive_spend 0 bGroceries [⟨80, "transport"⟩]).2.2 (by decide)⟩

/-- C2 (code bug, evaluated at the failing input): a transport error
fetching the first budget makes the whole `analyze_budgets` call error
out — the second budget is not analyzed, so failures are not isolated
per budget — and `get_user_transactions` maps a non-success (503)
response to `ok []`, indistinguishable from a genuinely empty 200
response, instead of a distinct upstream-unavailable condition. -/
theorem c2_fetch_failure_conflation :
    analyze_budgets 0 failingFetch [bFoodFirst, bRentSecond]
        = .error "Connection refused" ∧
    get_user_transactions (.response 503 [⟨50, "rent"⟩]) = .ok [] ∧
    get_user_transactions (.response 200 ([] : List Transaction)) = .ok [] :=
  ⟨rfl, rfl, rfl⟩

/-- C4 (code bug, evaluated at the failing input): the accounts rewrite
is correct for single-segment rests, but a multi-segment rest such as
"123/profile" is forwarded to "/123/123/profile" — the handler
reconstructs the prefix from the second-to-last path segment — not to
"/users/123/profile" as the routing table promises. -/
theorem c4_accounts_rewrite_eval :
    users_route_forward "123" = "/users/123" ∧
    accounts_route_forward "123" = "/accounts/123" ∧
    users_route_forward "123/profile" = "/123/123/profile" ∧
    users_route_forward "123/profile" ≠ "/users/123/profile" := by
  refine ⟨?_, ?_, ?_, ?_⟩ <;> decide

/-- Counterexample to C3: a backend reply with status 404 and a
plain-text body is delivered to the caller with status 200 — the
handler returns only `result["content"]`, so the status code of the
backend is not carried. -/
theorem c3_status_not_relayed_counterexample :
    transactions_proxy parseJsonAtom sendText404 "items" reqSimpleGet
        = .response 200 (.text "missing") ∧
    (200 : ℕ) ≠ 404 :=
  ⟨rfl, by decide⟩

/-- C3 as amended: for every successfully proxied request the body of
the backend is relayed — parsed and re-emitted as JSON when the content
type starts with application/json, verbatim as text otherwise — but the
status code of the backend is dropped: the handler returns only the
content and the caller receives the framework default 200. -/
theorem c3_body_relayed_status_dropped (parse : String → Option Json)
    (send : OutboundRequest → BackendOutcome)
    (service_url path method : String) (req : Request) (outReq : OutboundRequest)
    (resp : BackendResponse)
    (hb : build_outbound service_url path method req = .ok outReq)
    (hs : send outReq = .ok resp) :
    (pyStartsWith resp.content_type "application/json" = false →
      handle_result (proxy_request parse send service_url path method req)
        = .response 200 (.text resp.body)) ∧
    (∀ j, pyStartsWith resp.content_type "application/json" = true →
      parse resp.body = some j →
      handle_result (proxy_request parse send service_url path method req)
        = .response 200 (.json j)) := by
  have h1 : proxy_request parse send service_url path method req
      = proxy_response parse (send outReq) := by
    unfold proxy_request
    rw [hb]
  rw [h1, hs]
  constructor
  · intro hct
    simp [proxy_response, hct, handle_result]
  · intro j hct hp
    simp [proxy_response, hct, hp, handle_result]

/-- Witness for the amended C3: the 404 text body "missing" comes back
to the caller as a 200 text response. -/
theorem c3_body_relayed_witness :
    handle_result (proxy_request parseJsonAtom sendText404 transaction_service_url
        (transactions_proxy_path "items") "GET" reqSimpleGet)
      = .response 200 (.text "missing") :=
  (c3_body_relayed_status_dropped parseJsonAtom sendText404 transaction_service_url
      (transactions_proxy_path "items") "GET" reqSimpleGet
      { url := transaction_service_url ++ transactions_proxy_path "items",
        method := "GET", headers := [("accept", "*/*")], params := some [],
        content := none }
      { status_code := 404, content_type := "text/plain", body := "missing",
        resp_headers := [] }
      rfl rfl).1 rfl

/-- C9: every forwarded request keeps the inbound method, the inbound
query parameters for GET and the inbound body bytes for POST/PUT, and
the forwarded headers are exactly the inbound headers with the host
entry dropped and everything else copied unchanged. -/
theorem c9_forwarding (service_url path method : String) (req : Request)
    (outReq : OutboundRequest)
    (h : build_outbound service_url path method req = .ok outReq) :
    outReq.url = service_url ++ path ∧
    outReq.method = method ∧
    outReq.headers = req.headers.filter (fun p => p.1 != "host") ∧
    (∀ p ∈ req.headers, p.1 ≠ "host" → p ∈ outReq.headers) ∧
    (∀ v, ("host", v) ∉ outReq.headers) ∧
    (method = "GET" → outReq.params = some req.query_params) ∧
    ((method = "POST" ∨ method = "PUT") → outReq.content = some req.body) := by
  have hmemKeep : ∀ p ∈ req.headers, p.1 ≠ "host" →
      p ∈ req.headers.filter (fun p => p.1 != "host") := by
    intro p hp hne
    exact List.mem_filter.mpr ⟨hp, by simpa using hne⟩
  have hmemHost : ∀ v : String,
      ("host", v) ∉ req.headers.filter (fun p => p.1 != "host") := by
    intro v hv
    have := (List.mem_filter.mp hv).2
    simp at this
  unfold build_outbound at h
  split_ifs at h with h1 h2 h3 h4
  · cases h
    exact ⟨rfl, h1.symm, rfl, hmemKeep, hmemHost, fun _ => rfl,
      by rintro (hm | hm) <;> rw [h1] at hm <;> exact absurd hm (by decide)⟩
  · cases h
    exact ⟨rfl, h2.symm, rfl, hmemKeep, hmemHost,
      fun hm => absurd hm (h2 ▸ h1), fun _ => rfl⟩
  · cases h
    exact ⟨rfl, h3.symm, rfl, hmemKeep, hmemHost,
      fun hm => absurd hm (h3 ▸ h1), fun _ => rfl⟩
  · cases h
    refine ⟨rfl, h4.symm, rfl, hmemKeep, hmemHost,
      fun hm => absurd hm (h4 ▸ h1), ?_⟩
    rintro (hm | hm) <;> rw [h4] at hm <;> exact absurd hm (by decide)

/-- Witness for C9: a concrete GET with a host header, one other header
and one query parameter forwards method GET, keeps the accept header
and the query parameter, and carries no host header. -/
theorem c9_forwarding_witness :
    outWitness.method = "GET" ∧
    outWitness.headers = reqWitness.headers.filter (fun p => p.1 != "host") ∧
    ("accept", "*/*") ∈ outWitness.headers ∧
    ("host", "gw.local") ∉ outWitness.headers ∧
    outWitness.params = some reqWitness.query_params := by
  have H := c9_forwarding "http://localhost:8002" "/users/me" "GET" reqWitness
    outWitness rfl
  exact ⟨H.2.1, H.2.2.1, H.2.2.2.1 ("accept", "*/*") (by decide) (by decide),
    H.2.2.2.2.1 "gw.local", H.2.2.2.2.2.1 rfl⟩

/-- C10: a backend response whose content type starts with
application/json but whose body does not parse as JSON makes
`proxy_request` fail with the JSON-decoding error, which the handler
for `httpx.RequestError` does not catch — the caller receives neither
the backend body nor the 503 service-unavailable response. -/
theorem c10_json_decode_uncaught (parse : String → Option Json)
    (send : OutboundRequest → BackendOutcome)
    (service_url path method : String) (req : Request) (outReq : OutboundRequest)
    (resp : BackendResponse)
    (hb : build_outbound service_url path method req = .ok outReq)
    (hs : send outReq = .ok resp)
    (hct : pyStartsWith resp.content_type "application/json" = true)
    (hparse : parse resp.body = none) :
    proxy_request parse send service_url path method req
        = .error .jsonDecodeError ∧
    handle_result (proxy_request parse send service_url path method req)
        = .internalServerError ∧
    (∀ sc c, handle_result (proxy_request parse send service_url path method req)
        ≠ .response sc c) ∧
    (∀ d, handle_result (proxy_request parse send service_url path method req)
        ≠ .httpErrorResponse 503 d) := by
  have h0 : proxy_request parse send service_url path method req
      = proxy_response parse (send outReq) := by
    unfold proxy_request
    rw [hb]
  have h1 : proxy_request parse send service_url path method req
      = .error .jsonDecodeError := by
    rw [h0, hs]
    simp [proxy_response, hct, hparse]
  refine ⟨h1, ?_, ?_, ?_⟩ <;> rw [h1] <;> simp [handle_result]

/-- Witness for C10: the body `"{"` under content type application/json
drives the gateway into the uncaught-error outcome. -/
theorem c10_json_decode_witness :
    proxy_request parseJsonAtom (fun _ => .ok respBadJson) transaction_service_url
        (transactions_proxy_path "items") "GET" reqSimpleGet
      = .error .jsonDecodeError ∧
    handle_result (proxy_request parseJsonAtom (fun _ => .ok respBadJson)
        transaction_service_url (transactions_proxy_path "items") "GET" reqSimpleGet)
      = .internalServerError := by
  have H := c10_json_decode_uncaught parseJsonAtom (fun _ => .ok respBadJson)
    transaction_service_url (transactions_proxy_path "items") "GET" reqSimpleGet
    { url := transaction_service_url ++ transactions_proxy_path "items",
      method := "GET", headers := [("accept", "*/*")], params := some [],
      content := none }
    respBadJson rfl rfl rfl rfl
  exact ⟨H.1, H.2.1⟩

/-- Helper: membership is invariant under `insertDesc`. -/
theorem insertDesc_mem {z x : SpendingInsight} {l : List SpendingInsight} :
    z ∈ insertDesc x l ↔ z = x ∨ z ∈ l := by
  induction l with
  | nil => simp [insertDesc]
  | cons y ys ih =>
    unfold insertDesc
    split_ifs with hc
    · simp [List.mem_cons]
    · simp only [List.mem_cons, ih]
      tauto

/-- Helper: `insertDesc` preserves the non-increasing-by-total order. -/
theorem insertDesc_pairwise (x : SpendingInsight) (l : List SpendingInsight)
    (hl : l.Pairwise (fun a b => b.total_spent ≤ a.total_spent)) :
    (insertDesc x l).Pairwise (fun a b => b.total_spent ≤ a.total_spent) := by
  induction l with
  | nil => simp [insertDesc]
  | cons y ys ih =>
    rw [List.pairwise_cons] at hl
    obtain ⟨hy, hys⟩ := hl
    unfold insertDesc
    split_ifs with hc
    · refine List.pairwise_cons.mpr ⟨?_, List.pairwise_cons.mpr ⟨hy, hys⟩⟩
      intro z hz
      rcases List.mem_cons.mp hz with rfl | hz2
      · exact hc
      · exact le_trans (hy z hz2) hc
    · refine List.pairwise_cons.mpr ⟨?_, ih hys⟩
      intro z hz
      rcases insertDesc_mem.mp hz with rfl | hz2
      · exact le_of_lt (not_le.mp hc)
      · exact hy z hz2

/-- Helper: filtering on one total value commutes with `insertDesc` —
the inserted element lands in front of the elements with its own total,
which is stability at the level of single-total slices. -/
theorem insertDesc_filter_total (t : ℚ) (x : SpendingInsight)
    (l : List SpendingInsight) :
    (insertDesc x l).filter (fun i => i.total_spent == t)
      = (x :: l).filter (fun i => i.total_spent == t) := by
  induction l with
  | nil => rfl
  | cons y ys ih =>
    unfold insertDesc
    split_ifs with hc
    · rfl
    · by_cases hx : x.total_spent = t <;> by_cases hy : y.total_spent = t
      · exact absurd (le_of_eq (hy.trans hx.symm)) hc
      · simp only [List.filter_cons, ih, hx, hy]
        simp [hx, hy]
      · simp only [List.filter_cons, ih, hx, hy]
        simp [hx, hy]
      · simp only [List.filter_cons, ih, hx, hy]
        simp [hx, hy]

/-- Helper: the stable descending sort leaves every single-total slice
of the list unchanged. -/
theorem sortByTotalDesc_filter_total (t : ℚ) (l : List SpendingInsight) :
    (sortByTotalDesc l).filter (fun i => i.total_spent == t)
      = l.filter (fun i => i.total_spent == t) := by
  induction l with
  | nil => rfl
  | cons x xs ih =>
    have h1 : sortByTotalDesc (x :: xs) = insertDesc x (sortByTotalDesc xs) := rfl
    rw [h1, insertDesc_filter_total]
    simp only [List.filter_cons, ih]

/-- Helper: sortedness of the stable descending sort. -/
theorem sortByTotalDesc_pairwise (l : List SpendingInsight) :
    (sortByTotalDesc l).Pairwise (fun a b => b.total_spent ≤ a.total_spent) := by
  induction l with
  | nil => simp [sortByTotalDesc]
  | cons x xs ih => exact insertDesc_pairwise x _ ih

/-- Helper: membership is invariant under the stable descending sort. -/
theorem sortByTotalDesc_mem {z : SpendingInsight} {l : List SpendingInsight} :
    z ∈ sortByTotalDesc l ↔ z ∈ l := by
  induction l with
  | nil => exact Iff.rfl
  | cons x xs ih =>
    show z ∈ insertDesc x (sortByTotalDesc xs) ↔ _
    rw [insertDesc_mem, ih, List.mem_cons]

/-- C8: for every non-empty transaction list the spending insights come
out non-increasing in total_spent; the sort is stable — each
equal-total slice keeps the group iteration order of `groupInsights` —
and every insight aggregates exactly the transactions whose category
label equals its own exactly (no case-folding). -/
theorem c8_insights_sorted_stable (txs : List Transaction) (h : txs ≠ []) :
    List.Pairwise (fun a b => b.total_spent ≤ a.total_spent)
      (get_spending_insights txs) ∧
    (∀ t : ℚ, (get_spending_insights txs).filter (fun i => i.total_spent == t)
      = (groupInsights txs).filter (fun i => i.total_spent == t)) ∧
    (∀ i ∈ get_spending_insights txs,
      i.total_spent
        = round2 (((txs.filter (fun tr => tr.category == i.category)).map
            Transaction.amount).sum)) := by
  have hne : txs.isEmpty = false := by
    cases txs with
    | nil => exact absurd rfl h
    | cons a l => rfl
  have hg : get_spending_insights txs = sortByTotalDesc (groupInsights txs) := by
    unfold get_spending_insights
    rw [hne]
    rfl
  refine ⟨?_, ?_, ?_⟩
  · rw [hg]
    exact sortByTotalDesc_pairwise _
  · intro t
    rw [hg, sortByTotalDesc_filter_total]
  · intro i hi
    rw [hg] at hi
    have hi2 : i ∈ groupInsights txs := sortByTotalDesc_mem.mp hi
    unfold groupInsights at hi2
    obtain ⟨c, hc, rfl⟩ := List.mem_map.mp hi2
    rfl

/-- Witness for C8: on two singleton categories the output is
non-increasing by total and its total-10 slice agrees with the group
iteration order. -/
theorem c8_insights_witness :
    List.Pairwise (fun a b => b.total_spent ≤ a.total_spent)
      (get_spending_insights txsIns) ∧
    (get_spending_insights txsIns).filter (fun i => i.total_spent == (10 : ℚ))
      = (groupInsights txsIns).filter (fun i => i.total_spent == (10 : ℚ)) := by
  have H := c8_insights_sorted_stable txsIns (by decide)
  exact ⟨H.1, H.2.1 10⟩

end HFM
